import Mathlib

/-!
# PentaShield — verification of the Trust Decision & Liveness Verification Engine

Shallow embedding of the decision-layer code of the PentaShield repository
(`src/scanner/...`) and proofs of the specification's claims about it.

Python floats are modelled as rationals (`ℚ`), except in the fusion engine
where `np.std` requires a square root and the embedding uses `ℝ`.
`round(x, 4)` — Python's 4-decimal output rounding, applied by the source to
every reported score — is modelled by `round4` below; Python's half-even tie
rule differs from Mathlib's `round` only at exact `.00005` ties, which no
claim exercises.
-/

namespace Scanner

/-- 4-decimal rounding, as applied by the source (`round(x, 4)`) to every
reported score before it is stored in a result object. -/
def round4 (x : ℚ) : ℚ := (round (x * 10000) : ℤ) / 10000

/-- 4-decimal rounding on `ℝ`, for the fusion engine (whose `np.std` forces a
real-valued model). -/
noncomputable def round4R (x : ℝ) : ℝ := (round (x * 10000) : ℤ) / 10000

/-! ## Enumerations (`src/scanner/models/enums.py`) -/

/-- `MediaType` from `enums.py`. -/
inductive MediaType
  | image | video | audio | text | stream
deriving DecidableEq, Repr

/-- `Verdict` from `enums.py` (5-level ordinal authenticity judgment). -/
inductive Verdict
  | authentic | likely_authentic | uncertain | likely_fake | fake
deriving DecidableEq, Repr

/-- `ThreatLevel` from `enums.py`. -/
inductive ThreatLevel
  | none | low | medium | high | critical
deriving DecidableEq, Repr

/-- `DetectorType` from `enums.py`. -/
inductive DetectorType
  | visual | audio | text | multimodal | biological | fusion | defense | pentashield
deriving DecidableEq, Repr

/-- `DetectorStatus` from `enums.py`. -/
inductive DetectorStatus
  | pass | warn | fail | error | skipped
deriving DecidableEq, Repr

/-! ## Trust Score Engine (`src/scanner/core/fusion/trust_score_engine.py`) -/

/-- `THREAT_MAP` from `trust_score_engine.py`: the canonical one-to-one
verdict → threat-level pairing. -/
def threatMap : Verdict → ThreatLevel
  | .fake => .critical
  | .likely_fake => .high
  | .uncertain => .medium
  | .likely_authentic => .low
  | .authentic => .none

/-- `TrustScoreEngine._to_verdict`: inclusive lower-bound thresholds on the
trust score. -/
def toVerdict (ts : ℚ) : Verdict :=
  if ts ≥ 0.8 then .authentic
  else if ts ≥ 0.6 then .likely_authentic
  else if ts ≥ 0.4 then .uncertain
  else if ts ≥ 0.2 then .likely_fake
  else .fake

/-- Per-verdict summary message from `TrustScoreEngine._explain` (the
percentage labels of `_explain` are float string-formatting and are omitted). -/
def explainSummary : Verdict → String
  | .authentic => "Content appears authentic with high confidence."
  | .likely_authentic => "Content is likely authentic, minor anomalies detected."
  | .uncertain => "Unable to determine authenticity. Manual review recommended."
  | .likely_fake => "Content shows signs of manipulation."
  | .fake => "Content is highly likely manipulated or synthetic."

/-- The dictionary returned by `TrustScoreEngine.compute`. -/
structure TrustAssessment where
  trust_score : ℚ
  verdict : Verdict
  threat_level : ThreatLevel
  confidence : ℚ
  summary : String
deriving DecidableEq, Repr

/-- `TrustScoreEngine.compute`: clamp `1 - fused_score` into `[0,1]`, derive
the verdict by thresholds and the threat level by `THREAT_MAP`; reported
scores are rounded to 4 decimals as in the source. -/
def TrustScoreEngine.compute (fused_score confidence : ℚ) : TrustAssessment :=
  let trust_score := max 0 (min 1 (1 - fused_score))
  let verdict := toVerdict trust_score
  { trust_score := round4 trust_score
    verdict := verdict
    threat_level := threatMap verdict
    confidence := round4 confidence
    summary := explainSummary verdict }

/-! ## PentaShield override policy (`src/scanner/pentashield/engine.py`) -/

/-- The `minority_report` dict attached to a `HydraResult`; the override
policy reads only its `dissent_magnitude` entry
(`hydra.minority_report.get("dissent_magnitude", 0)`). -/
structure MinorityInfo where
  dissent_magnitude : ℚ
deriving DecidableEq, Repr

/-- `HydraResult` from `src/scanner/models/schemas.py`. -/
structure HydraResult where
  adversarial_detected : Bool := false
  purification_applied : Bool := false
  head_verdicts : List ℚ := []
  consensus_score : ℚ := 0.5
  minority_report : Option MinorityInfo := none
  robustness_score : ℚ := 0
deriving DecidableEq, Repr

/-- `SentinelResult` from `src/scanner/models/schemas.py`. -/
structure SentinelResult where
  ood_score : ℚ := 0
  is_novel_type : Bool := false
  physics_score : ℚ := 1
  physics_anomalies : List String := []
  bio_consistency : ℚ := 1
  anomaly_score : ℚ := 0
  alert_level : String := "none"
deriving DecidableEq, Repr

/-- Which override rule of `PentaShieldEngine._check_overrides` fired, with
the data its reason string interpolates (the reason strings carry these
values through f-string formatting, modelled structurally here). -/
inductive OverrideReason
  | adversarial
  | novelType (oodScore : ℚ)
  | physicsViolation (physicsScore : ℚ) (anomalies : List String)
  | headDissent (magnitude : ℚ)
deriving DecidableEq, Repr

/-- `PentaShieldEngine._check_overrides`: the override rules evaluated in
fixed priority order, first match winning; returns `(none, none)` when no
rule matches.  The physics rule attaches `physics_anomalies[:3]`. -/
def checkOverrides (hydra : HydraResult) (sentinel : SentinelResult)
    (_fusedScore : ℚ) : Option Verdict × Option OverrideReason :=
  if hydra.adversarial_detected then
    (some .uncertain, some .adversarial)
  else if sentinel.is_novel_type then
    (some .uncertain, some (.novelType sentinel.ood_score))
  else if sentinel.physics_score < 0.3 then
    (some .likely_fake,
     some (.physicsViolation sentinel.physics_score (sentinel.physics_anomalies.take 3)))
  else
    match hydra.minority_report with
    | some mr =>
        if mr.dissent_magnitude > 0.5 then
          (some .uncertain, some (.headDissent mr.dissent_magnitude))
        else (none, none)
    | none => (none, none)

/-! ## Base detector result (`src/scanner/core/base_detector.py`, absent from src) -/

/-- Modelled from the spec: `scanner/core/base_detector.py` is missing from
the source tree (only its unit tests and the registry's type annotations
refer to it).  Per the spec's clamp law — "score and confidence are always
clamped into [0,1] regardless of upstream value" — and the repository test
`test_detector_result_clamp`, the `DetectorResult` dataclass clamps both
fields to the nearest bound at construction. -/
structure DetectorResult where
  detector_name : String
  detector_type : DetectorType
  score : ℚ
  confidence : ℚ
  status : DetectorStatus := .pass
  method : String := ""
  processing_time_ms : ℚ := 0
deriving DecidableEq, Repr

/-- Modelled from the spec: construction of a `DetectorResult` (absent
`base_detector.py`), clamping `score` and `confidence` into `[0,1]` as the
spec's clamp law and `test_detector_result_clamp` require. -/
def DetectorResult.make (name : String) (dtype : DetectorType)
    (score confidence : ℚ) (status : DetectorStatus := .pass)
    (method : String := "") (time_ms : ℚ := 0) : DetectorResult :=
  { detector_name := name
    detector_type := dtype
    score := max 0 (min 1 score)
    confidence := max 0 (min 1 confidence)
    status := status
    method := method
    processing_time_ms := time_ms }

/-! ## Scan Orchestrator (`src/scanner/core/orchestrator.py`)

The orchestrator in the source is the documented "structural skeleton":
steps 2–4 (preprocessing / quality / cache) are stubbed, no detector is
invoked, and the fusion step is a placeholder that hard-codes
`trust_score=0.5, verdict=UNCERTAIN, threat_level=LOW, confidence=0.0`.
The embedding is faithful to that skeleton.  Runtime effects are passed
explicitly: the two `uuid.uuid4()` draws, the two `perf_counter()`
readings, the SHA-256 hex digest function, and the registry's enabled
detector list. -/

/-- Parse a `media_type_hint` string as `MediaType(hint)` does, `none`
standing for the `ValueError` branch. -/
def parseMediaType (s : String) : Option MediaType :=
  if s = "image" then some .image
  else if s = "video" then some .video
  else if s = "audio" then some .audio
  else if s = "text" then some .text
  else if s = "stream" then some .stream
  else none

/-- `filename.rsplit(".", 1)[-1].lower() if "." in filename else ""`. -/
def extOf (filename : String) : String :=
  if filename.contains '.' then ((filename.splitOn ".").getLastD "").toLower
  else ""

/-- `mimetypes.guess_type` restricted to the MIME prefix the orchestrator
inspects: a pure, extension-keyed lookup (the relevant rows of CPython's
extension table; the orchestrator only ever tests the `video/ image/ audio/
text/` prefix of the guess). -/
def mimeClassOf (filename : String) : Option MediaType :=
  let e := extOf filename
  if e ∈ ["mp4", "avi", "mov", "mkv", "webm", "mpeg", "mpg"] then some .video
  else if e ∈ ["jpg", "jpeg", "png", "webp", "bmp", "gif", "tif", "tiff"] then some .image
  else if e ∈ ["mp3", "wav", "flac", "aiff", "aifc", "aif"] then some .audio
  else if e ∈ ["txt", "csv", "html", "htm", "css"] then some .text
  else none

/-- The orchestrator's extension fallback table (`ext_map` in
`_detect_media_type`). -/
def extMap (e : String) : Option MediaType :=
  if e ∈ ["mp4", "avi", "mov", "mkv", "webm"] then some .video
  else if e ∈ ["jpg", "jpeg", "png", "webp", "bmp"] then some .image
  else if e ∈ ["mp3", "wav", "flac", "ogg"] then some .audio
  else if e ∈ ["txt", "md"] then some .text
  else none

/-- `ScanOrchestrator._detect_media_type`: explicit hint first, else MIME
guess, else extension table, else default `IMAGE`. -/
def detectMediaType (filename : String) (hint : Option String) : MediaType :=
  match hint.bind parseMediaType with
  | some mt => mt
  | none =>
    match mimeClassOf filename with
    | some mt => mt
    | none => (extMap (extOf filename)).getD .image

/-- The `explanation` dict the skeleton orchestrator attaches to every
`ScanResult`. -/
structure Explanation where
  summary_en : String
  content_hash : String
  correlation_id : String
deriving DecidableEq, Repr

/-- `ScanResult` (`src/scanner/models/schemas.py`) as populated by the
orchestrator; `pentashield` is the empty dict and `attribution`/`created_at`
are defaulted in the skeleton and omitted here. -/
structure ScanResult where
  scan_id : String
  media_type : MediaType
  verdict : Verdict
  trust_score : ℚ
  confidence : ℚ
  threat_level : ThreatLevel
  detector_results : List (String × DetectorResult)
  explanation : Explanation
  processing_time_ms : ℚ
deriving DecidableEq, Repr

/-- The runtime effects of one `ScanOrchestrator.scan` call, passed
explicitly: the `uuid4().hex[:12]` draw for the scan id, the `uuid4().hex`
draw for the correlation id, and the two `time.perf_counter()` readings. -/
structure ScanEffects where
  uuidScanHex : String
  uuidCorrHex : String
  startT : ℚ
  endT : ℚ
deriving DecidableEq, Repr

/-- `ScanOrchestrator.scan`, the skeleton pipeline of the source: resolve
the media type, hash the content, note (but otherwise ignore) the enabled
detector list, hard-code the placeholder fusion outcome, and assemble the
`ScanResult`.  `sha256hex` is the digest primitive (`hashlib.sha256(...).
hexdigest()`), injected; `enabled` is `registry.get_enabled()`, which the
skeleton only consults for a log line. -/
def scan (sha256hex : List Nat → String) (content : List Nat)
    (filename : String) (media_type_hint : Option String)
    (_enabled : List String) (fx : ScanEffects) : ScanResult :=
  let media_type := detectMediaType filename media_type_hint
  let content_hash := sha256hex content
  { scan_id := "scn_" ++ fx.uuidScanHex
    media_type := media_type
    verdict := .uncertain
    trust_score := 0.5
    confidence := 0
    threat_level := .low
    detector_results := []
    explanation :=
      { summary_en := "No detectors active — pipeline skeleton ready"
        content_hash := content_hash
        correlation_id := fx.uuidCorrHex }
    processing_time_ms := (fx.endT - fx.startT) * 1000 }

/-! ## Active-probe passive challenges
(`src/scanner/pentashield/active_probe/light_challenge_passive.py`,
 `motion_challenge_passive.py`)

The three sub-metrics of each challenge are pixel-level OpenCV computations
on frames; the embedding abstracts frames to a type parameter and takes the
metric functions as arguments, while reproducing the control flow of
`evaluate` exactly: the insufficient-frames defaults, the per-metric frame
gates, the `0.4/0.3/0.3` weighting, the `≥ 0.6` pass threshold, and the
4-decimal output rounding. -/

/-- `LightChallengeResult` dataclass, with its defaults (all scores `1.0`,
`passed=True`). -/
structure LightChallengeResult where
  ambient_response_score : ℚ := 1
  shadow_coherence : ℚ := 1
  specular_response : ℚ := 1
  overall_score : ℚ := 1
  passed : Bool := true
deriving DecidableEq, Repr

/-- `MotionChallengeResult` dataclass, with its defaults. -/
structure MotionChallengeResult where
  flow_consistency : ℚ := 1
  face_bg_ratio : ℚ := 1
  temporal_smoothness : ℚ := 1
  overall_score : ℚ := 1
  passed : Bool := true
deriving DecidableEq, Repr

/-- `LightChallenge.evaluate` over an abstract frame type `F`:
`ambient`, `shadow`, `specular` stand for `_ambient_response`,
`_shadow_coherence`, `_specular_response` (OpenCV pixel computations).
`none`, `[]` or a single frame return the dataclass default; with fewer
than `MIN_FRAMES = 4` frames the shadow and specular metrics are skipped
with value `1.0` (matching the metrics' own internal `len < 4` guards). -/
def lightEvaluate {F : Type} (ambient shadow specular : List F → ℚ)
    (frames : Option (List F)) : LightChallengeResult :=
  match frames with
  | none => {}
  | some fs =>
    if fs.length < 2 then {}
    else
      let a := ambient fs
      let s := if 4 ≤ fs.length then shadow fs else 1
      let p := if 4 ≤ fs.length then specular fs else 1
      let overall := 0.4 * a + 0.3 * s + 0.3 * p
      { ambient_response_score := round4 a
        shadow_coherence := round4 s
        specular_response := round4 p
        overall_score := round4 overall
        passed := decide (overall ≥ 0.6) }

/-- `MotionChallenge.evaluate` over an abstract frame type `F`:
`flow`, `fbRatio`, `smooth` stand for `_flow_consistency`,
`_face_bg_ratio`, `_temporal_smoothness`.  `none`, `[]` or a single frame
(`len < MIN_FRAMES = 2`) return the dataclass default. -/
def motionEvaluate {F : Type} (flow fbRatio smooth : List F → ℚ)
    (frames : Option (List F)) : MotionChallengeResult :=
  match frames with
  | none => {}
  | some fs =>
    if fs.length < 2 then {}
    else
      let f := flow fs
      let r := fbRatio fs
      let s := smooth fs
      let overall := 0.4 * f + 0.3 * r + 0.3 * s
      { flow_consistency := round4 f
        face_bg_ratio := round4 r
        temporal_smoothness := round4 s
        overall_score := round4 overall
        passed := decide (overall ≥ 0.6) }

/-! ## Cross-modal fusion (`src/scanner/core/fusion/cross_modal_attention.py`)

`np.std` forces `ℝ` here.  A per-detector entry is its `(score, confidence)`
pair (`r.get("score", 0.5)` / `r.get("confidence", 0.0)` on a well-formed
result dict); a modality is present when its result dict is non-empty. -/

/-- One detector entry of a modality's result dict. -/
structure DetEntry where
  score : ℝ
  confidence : ℝ

/-- Per-modality aggregate (`modality_scores[name]` in `fuse`): the
confidence-weighted mean score — with the source's `1e-8` guard in the
denominator — and the arithmetic-mean confidence. -/
noncomputable def modalityInfo (rs : List DetEntry) : ℝ × ℝ :=
  let tc := (rs.map (·.confidence)).sum + 1e-8
  (((rs.map (fun r => r.score * r.confidence)).sum) / tc,
   (rs.map (·.confidence)).sum / rs.length)

/-- A present modality: its name and aggregated `(score, confidence)`. -/
structure ModInfo where
  name : String
  score : ℝ
  conf : ℝ

/-- `ATTENTION_PRIORS` with the symmetric lookup and `0.5` default of
`_compute_attention`. -/
def attentionPrior (a b : String) : ℝ :=
  if (a = "visual" ∧ b = "audio") ∨ (a = "audio" ∧ b = "visual") then 0.7
  else if (a = "visual" ∧ b = "text") ∨ (a = "text" ∧ b = "visual") then 0.4
  else if (a = "audio" ∧ b = "text") ∨ (a = "text" ∧ b = "audio") then 0.5
  else 0.5

/-- Un-normalized attention weight of modality `m` among `ms`.  In the
source each unordered pair `(m1, m2)` with `i < j` boosts both endpoints by
`(1 - |score₁ - score₂|) * prior`; since the boost and the prior are
symmetric and modality names are distinct dict keys, the weight of `m` is
`1.0` plus the sum of its boosts against every other present modality. -/
noncomputable def rawWeight (ms : List ModInfo) (m : ModInfo) : ℝ :=
  1 + ((ms.filter (fun m2 => m2.name ≠ m.name)).map
        (fun m2 => (1 - |m.score - m2.score|) * attentionPrior m.name m2.name)).sum

/-- `_compute_attention`: raw pairwise-boosted weights normalized to sum to
one across the present modalities. -/
noncomputable def computeAttention (ms : List ModInfo) : List (String × ℝ) :=
  let total := (ms.map (rawWeight ms)).sum
  ms.map (fun m => (m.name, rawWeight ms m / total))

/-- Population standard deviation, `np.std`. -/
noncomputable def npStd (xs : List ℝ) : ℝ :=
  let μ := xs.sum / xs.length
  Real.sqrt ((xs.map (fun x => (x - μ) ^ 2)).sum / xs.length)

/-- `CrossModalAttention._agreement`: `0.5` for fewer than two present
modalities, else `max(0, 1 - 3·std(scores))`. -/
noncomputable def agreementOf (ms : List ModInfo) : ℝ :=
  if ms.length < 2 then 0.5
  else max 0 (1 - npStd (ms.map (·.score)) * 3)

/-- The dict returned by `CrossModalAttention.fuse`; `attention_weights`,
`modality_scores` and `agreement` are absent (`none`) on the
`no_modalities` early return. -/
structure FusionOutput where
  fused_score : ℝ
  confidence : ℝ
  attention_weights : Option (List (String × ℝ))
  agreement : Option ℝ
  method : String

/-- The ordered list of present modalities (`modality_scores` insertion
order: visual, audio, text). -/
noncomputable def presentModalities (visual audio text : List DetEntry) : List ModInfo :=
  (if visual.isEmpty then [] else
      [⟨"visual", (modalityInfo visual).1, (modalityInfo visual).2⟩]) ++
  (if audio.isEmpty then [] else
      [⟨"audio", (modalityInfo audio).1, (modalityInfo audio).2⟩]) ++
  (if text.isEmpty then [] else
      [⟨"text", (modalityInfo text).1, (modalityInfo text).2⟩])

/-- `CrossModalAttention.fuse`: aggregate each non-empty modality, early
return `{fused_score: 0.5, confidence: 0.0}` when none is present, else
attention-and-confidence-weight the modality scores and report
`min(0.95, agreement * 1.2)` as confidence, 4-decimal rounded. -/
noncomputable def fuse (visual audio text : List DetEntry) : FusionOutput :=
  let ms := presentModalities visual audio text
  if ms.isEmpty then
    { fused_score := 0.5, confidence := 0, attention_weights := none
      agreement := none, method := "no_modalities" }
  else
    let weights := computeAttention ms
    let fs := (ms.map (fun m => rawWeight ms m / (ms.map (rawWeight ms)).sum
                  * m.score * m.conf)).sum
    let tw := (ms.map (fun m => rawWeight ms m / (ms.map (rawWeight ms)).sum
                  * m.conf)).sum
    let agreement := agreementOf ms
    { fused_score := round4R (if tw > 0 then fs / tw else 0.5)
      confidence := round4R (min 0.95 (agreement * 1.2))
      attention_weights := some weights
      agreement := some agreement
      method := "cross_modal_attention" }

/-! ## Challenge protocol
(`src/scanner/pentashield/active_probe/challenge_protocol.py`)

Randomness is passed explicitly: each generated challenge consumes one
8-byte token from `secrets.token_hex(8)` (modelled as a `Nat < 16^16`
rendered as 16 lowercase hex digits) together with the `random`-module
draws for its parameters; the final `random.shuffle` is modelled as an
arbitrary permutation of the generated list. -/

/-- The three challenge types of `generate_session_challenges`. -/
inductive CType
  | light | motion | audio
deriving DecidableEq, Repr

/-- The `f"light_…"` / `f"motion_…"` / `f"audio_…"` id tag per type. -/
def typeTag : CType → String
  | .light => "light_"
  | .motion => "motion_"
  | .audio => "audio_"

/-- Lowercase hex digit of `m % 16` (`Nat.digitChar` agrees with Python hex
digits below 16). -/
def hexChar (m : Nat) : Char := Nat.digitChar (m % 16)

/-- `n` rendered as exactly `k` hex digits, least significant digit last —
the shape of `secrets.token_hex`'s output for `k/2` random bytes. -/
def hexOfNat : Nat → Nat → List Char
  | 0, _ => []
  | k + 1, n => hexOfNat k (n / 16) ++ [hexChar n]

/-- `challenge_id` of a challenge of type `t` built from the 8-byte secrets
token `tok`: the type tag followed by `token_hex(8)`'s 16 hex digits. -/
def challengeId (t : CType) (tok : Nat) : String :=
  ⟨(typeTag t).data ++ hexOfNat 16 tok⟩

/-- One step of a light challenge's flash sequence: an index into
`LIGHT_COLORS` and a duration drawn from `randint(400, 800)`. -/
structure FlashStep where
  colorIdx : Nat
  duration_ms : Nat
deriving DecidableEq, Repr

/-- `LIGHT_COLORS`. -/
def lightColors : List String :=
  ["#FFFFFF", "#000000", "#FF0000", "#00FF00", "#0000FF"]

/-- A row of `MOTION_DIRECTIONS`: direction key, instruction, base angle. -/
structure MotionDir where
  direction : String
  instruction : String
  angle : Int
deriving DecidableEq, Repr

/-- `MOTION_DIRECTIONS`. -/
def motionDirections : List MotionDir :=
  [⟨"left", "Başınızı SOLA çevirin", 30⟩,
   ⟨"right", "Başınızı SAĞA çevirin", 30⟩,
   ⟨"up", "Başınızı YUKARI kaldırın", 25⟩,
   ⟨"down", "Başınızı AŞAĞI eğin", 25⟩,
   ⟨"nod", "Başınızı EVET anlamında sallayın", 20⟩,
   ⟨"shake", "Başınızı HAYIR anlamında sallayın", 20⟩]

/-- The random draws consumed by one challenge generation, tagged with the
type `random.choice` picked for it.  `token` is the `secrets.token_hex(8)`
draw; the other fields are the `random`-module draws of the corresponding
`_generate_*_challenge` (`randint(2,4)` flash count with per-flash color
and `randint(400,800)` duration; direction choice, `randint(-5,5)` angle
perturbation and `randint(2000,3500)` duration; audio table choice and
`randint(2000,4000)` duration). -/
inductive Draw
  | light (token : Nat) (flashes : List FlashStep)
  | motion (token : Nat) (dirIdx : Nat) (anglePerturb : Int) (duration : Nat)
  | audio (token : Nat) (audioText : String) (instruction : String) (duration : Nat)
deriving DecidableEq, Repr

/-- The secrets token a draw consumes. -/
def Draw.token : Draw → Nat
  | .light tok _ => tok
  | .motion tok _ _ _ => tok
  | .audio tok _ _ _ => tok

/-- The challenge type a draw generates. -/
def Draw.ctype : Draw → CType
  | .light _ _ => .light
  | .motion _ _ _ _ => .motion
  | .audio _ _ _ _ => .audio

/-- Type-specific challenge parameters (`parameters` dict). -/
inductive ChalParams
  | light (sequence : List (String × Nat))
  | motion (direction : String) (expected_angle : Int) (tolerance : Nat)
  | audio (expected_text : String) (language : String)
deriving DecidableEq, Repr

/-- The `Challenge` dataclass (verification-criteria dicts are the fixed
per-type constants of the source and are determined by `challenge_type`;
they are omitted as fields). -/
structure Challenge where
  challenge_id : String
  challenge_type : CType
  instruction : String
  parameters : ChalParams
  expected_duration_ms : Nat
deriving DecidableEq, Repr

/-- `_generate_light_challenge` / `_generate_motion_challenge` /
`_generate_audio_challenge` applied to the given draws. -/
def genChallenge : Draw → Challenge
  | .light tok flashes =>
    let seq := flashes.map (fun f => (lightColors.getD f.colorIdx "#FFFFFF", f.duration_ms))
    { challenge_id := challengeId .light tok
      challenge_type := .light
      instruction := "Ekranınıza bakın - ekran rengi değişecek"
      parameters := .light seq
      expected_duration_ms := (seq.map (·.2)).sum }
  | .motion tok dirIdx perturb dur =>
    let md := motionDirections.getD dirIdx ⟨"left", "Başınızı SOLA çevirin", 30⟩
    { challenge_id := challengeId .motion tok
      challenge_type := .motion
      instruction := md.instruction
      parameters := .motion md.direction (md.angle + perturb) 10
      expected_duration_ms := dur }
  | .audio tok txt instr dur =>
    { challenge_id := challengeId .audio tok
      challenge_type := .audio
      instruction := instr
      parameters := .audio txt "tr"
      expected_duration_ms := dur }

/-- `generate_session_challenges` before its final `random.shuffle`: one
challenge per draw, in draw order (the type-picking loop's `random.choice`
outcomes are the types carried by the draws).  The shuffled session output
is any permutation of this list. -/
def sessionChallenges (draws : List Draw) : List Challenge :=
  draws.map genChallenge

/-! ## Theorems -/

/-- C1: for every fused_score, `TrustScoreEngine.compute` sets
`trust_score = max(0, min(1, 1 − fused_score))` (reported with the
4-decimal output rounding the source applies) and derives the verdict by
inclusive lower-bound thresholds on the trust score — `≥ 0.8` AUTHENTIC,
`≥ 0.6` LIKELY_AUTHENTIC, `≥ 0.4` UNCERTAIN, `≥ 0.2` LIKELY_FAKE, else
FAKE — and each boundary value 0.8, 0.6, 0.4, 0.2 maps to the higher
verdict. -/
theorem compute_trust_and_verdict (fused conf : ℚ) :
    (TrustScoreEngine.compute fused conf).trust_score
        = round4 (max 0 (min 1 (1 - fused)))
    ∧ (TrustScoreEngine.compute fused conf).verdict
        = toVerdict (max 0 (min 1 (1 - fused)))
    ∧ (∀ ts : ℚ, 0.8 ≤ ts → toVerdict ts = .authentic)
    ∧ (∀ ts : ℚ, 0.6 ≤ ts → ts < 0.8 → toVerdict ts = .likely_authentic)
    ∧ (∀ ts : ℚ, 0.4 ≤ ts → ts < 0.6 → toVerdict ts = .uncertain)
    ∧ (∀ ts : ℚ, 0.2 ≤ ts → ts < 0.4 → toVerdict ts = .likely_fake)
    ∧ (∀ ts : ℚ, ts < 0.2 → toVerdict ts = .fake)
    ∧ (TrustScoreEngine.compute 0.2 conf).verdict = .authentic
    ∧ (TrustScoreEngine.compute 0.4 conf).verdict = .likely_authentic
    ∧ (TrustScoreEngine.compute 0.6 conf).verdict = .uncertain
    ∧ (TrustScoreEngine.compute 0.8 conf).verdict = .likely_fake := by
  refine ⟨rfl, rfl, ?_, ?_, ?_, ?_, ?_, ?_, ?_, ?_, ?_⟩
  · intro ts h
    simp [toVerdict, ge_iff_le, h]
  · intro ts h1 h2
    have hn : ¬ (0.8 : ℚ) ≤ ts := not_le.mpr h2
    simp [toVerdict, ge_iff_le, hn, h1]
  · intro ts h1 h2
    have hn8 : ¬ (0.8 : ℚ) ≤ ts := not_le.mpr (by linarith)
    have hn6 : ¬ (0.6 : ℚ) ≤ ts := not_le.mpr h2
    simp [toVerdict, ge_iff_le, hn8, hn6, h1]
  · intro ts h1 h2
    have hn8 : ¬ (0.8 : ℚ) ≤ ts := not_le.mpr (by linarith)
    have hn6 : ¬ (0.6 : ℚ) ≤ ts := not_le.mpr (by linarith)
    have hn4 : ¬ (0.4 : ℚ) ≤ ts := not_le.mpr h2
    simp [toVerdict, ge_iff_le, hn8, hn6, hn4, h1]
  · intro ts h1
    have hn8 : ¬ (0.8 : ℚ) ≤ ts := not_le.mpr (by linarith)
    have hn6 : ¬ (0.6 : ℚ) ≤ ts := not_le.mpr (by linarith)
    have hn4 : ¬ (0.4 : ℚ) ≤ ts := not_le.mpr (by linarith)
    have hn2 : ¬ (0.2 : ℚ) ≤ ts := not_le.mpr h1
    simp [toVerdict, ge_iff_le, hn8, hn6, hn4, hn2]
  · norm_num [TrustScoreEngine.compute, toVerdict]
  · norm_num [TrustScoreEngine.compute, toVerdict]
  · norm_num [TrustScoreEngine.compute, toVerdict]
  · norm_num [TrustScoreEngine.compute, toVerdict]

/-- Witness for C1, at the spec example scenario: fused_score 0.08 gives
trust_score 0.92 and verdict AUTHENTIC. -/
theorem compute_trust_and_verdict_witness :
    (0.8 : ℚ) ≤ max 0 (min 1 (1 - 0.08))
    ∧ (TrustScoreEngine.compute 0.08 0.9).verdict = .authentic
    ∧ (TrustScoreEngine.compute 0.08 0.9).trust_score = 0.92 := by
  have h := compute_trust_and_verdict 0.08 0.9
  refine ⟨by norm_num, ?_, ?_⟩
  · rw [h.2.1]
    exact h.2.2.1 _ (by norm_num)
  · rw [h.1]
    norm_num [round4, round_eq]

/-- C2 (code_bug evidence): the skeleton orchestrator pairs verdict
UNCERTAIN with threat_level LOW in every `ScanResult` it produces, while
the canonical `THREAT_MAP` of the trust score engine maps UNCERTAIN to
MEDIUM — so every reachable `ScanResult` violates the one-to-one
verdict → threat_level map. -/
theorem scan_threat_level_mismatch (sha : List Nat → String)
    (content : List Nat) (filename : String) (hint : Option String)
    (enabled : List String) (fx : ScanEffects) :
    (scan sha content filename hint enabled fx).verdict = .uncertain
    ∧ (scan sha content filename hint enabled fx).threat_level = .low
    ∧ threatMap .uncertain = .medium
    ∧ ThreatLevel.low ≠ ThreatLevel.medium := by
  exact ⟨rfl, rfl, rfl, by simp⟩

/-- C3 (code_bug evidence): the orchestrator never consults a
fingerprint-keyed cache — `scan_id` is `"scn_" + uuid4().hex[:12]`, a
function of the fresh uuid draw alone — so two scans of the byte-identical
content of the repository test `test_cache_hit` get different scan ids
whenever the uuid draws differ. -/
theorem scan_no_cache_fresh_ids :
    (scan (fun _ => "") ("same content for cache test".data.map Char.toNat)
        "test.jpg" none [] ⟨"aaaaaaaaaaaa", "c1", 0, 1⟩).scan_id
      ≠ (scan (fun _ => "") ("same content for cache test".data.map Char.toNat)
        "test.jpg" none [] ⟨"bbbbbbbbbbbb", "c2", 0, 1⟩).scan_id
    ∧ ∀ (sha : List Nat → String) (content : List Nat) (filename : String)
        (hint : Option String) (enabled : List String) (fx : ScanEffects),
        (scan sha content filename hint enabled fx).scan_id
          = "scn_" ++ fx.uuidScanHex := by
  constructor
  · simp [scan]
  · intro sha content filename hint enabled fx
    rfl

/-- C4: with zero enabled detectors the skeleton orchestrator does not
fail: the `ScanResult` has verdict UNCERTAIN, confidence 0, and a strictly
positive `processing_time_ms` (the clock readings satisfying
`startT < endT`). -/
theorem scan_zero_detectors_default (sha : List Nat → String)
    (content : List Nat) (filename : String) (hint : Option String)
    (enabled : List String) (fx : ScanEffects)
    (_hzero : enabled = []) (hclock : fx.startT < fx.endT) :
    (scan sha content filename hint enabled fx).verdict = .uncertain
    ∧ (scan sha content filename hint enabled fx).confidence = 0
    ∧ (scan sha content filename hint enabled fx).processing_time_ms > 0 := by
  refine ⟨rfl, rfl, ?_⟩
  show (fx.endT - fx.startT) * 1000 > 0
  have h : 0 < fx.endT - fx.startT := by linarith
  positivity

/-- Witness for C4, at the spec scenario `scan("x.jpg")` with no detectors
registered. -/
theorem scan_zero_detectors_default_witness :
    ([] : List String) = []
    ∧ (⟨"abcdef123456", "c0", 0, 1⟩ : ScanEffects).startT
        < (⟨"abcdef123456", "c0", 0, 1⟩ : ScanEffects).endT
    ∧ (scan (fun _ => "") [120] "x.jpg" none [] ⟨"abcdef123456", "c0", 0, 1⟩).verdict
        = .uncertain
    ∧ (scan (fun _ => "") [120] "x.jpg" none [] ⟨"abcdef123456", "c0", 0, 1⟩).confidence = 0
    ∧ (scan (fun _ => "") [120] "x.jpg" none []
        ⟨"abcdef123456", "c0", 0, 1⟩).processing_time_ms > 0 := by
  have h := scan_zero_detectors_default (fun _ => "") [120] "x.jpg" none []
    ⟨"abcdef123456", "c0", 0, 1⟩ rfl (by norm_num)
  exact ⟨rfl, by norm_num, h.1, h.2.1, h.2.2⟩

/-- C5: `_check_overrides` evaluates its rules in fixed priority order with
first match winning: adversarial detection forces UNCERTAIN even when
`physics_score < 0.3`; with neither adversarial nor novel-type flags set, a
`physics_score < 0.3` forces LIKELY_FAKE with a reason carrying at most 3
physics anomalies; and when no rule (including minority dissent
magnitude > 0.5) matches, no override is returned. -/
theorem check_overrides_priority (h : HydraResult) (s : SentinelResult) (fs : ℚ) :
    (h.adversarial_detected = true →
        checkOverrides h s fs = (some .uncertain, some .adversarial))
    ∧ (h.adversarial_detected = false → s.is_novel_type = false →
        s.physics_score < 0.3 →
        checkOverrides h s fs
          = (some .likely_fake,
             some (.physicsViolation s.physics_score (s.physics_anomalies.take 3)))
        ∧ (s.physics_anomalies.take 3).length ≤ 3)
    ∧ (h.adversarial_detected = false → s.is_novel_type = false →
        ¬ s.physics_score < 0.3 →
        (∀ mr, h.minority_report = some mr → ¬ mr.dissent_magnitude > 0.5) →
        checkOverrides h s fs = (none, none)) := by
  refine ⟨?_, ?_, ?_⟩
  · intro ha
    simp [checkOverrides, ha]
  · intro ha hn hp
    refine ⟨by simp [checkOverrides, ha, hn, hp], ?_⟩
    simp [List.length_take]
  · intro ha hn hp hmr
    simp only [checkOverrides, ha, Bool.false_eq_true, if_false, hn, if_neg hp]
    cases hopt : h.minority_report with
    | none => rfl
    | some mr => simp [hmr mr hopt]

/-- Witness for C5: the spec scenario `adversarial_detected = true`,
`physics_score = 0.1` yields override UNCERTAIN (rule 1 beats rule 3), and
a result with no flags, good physics, and mild dissent yields no
override. -/
theorem check_overrides_priority_witness :
    ({ adversarial_detected := true } : HydraResult).adversarial_detected = true
    ∧ ({ physics_score := 0.1 } : SentinelResult).physics_score < 0.3
    ∧ checkOverrides { adversarial_detected := true } { physics_score := 0.1 } 0.5
        = (some .uncertain, some .adversarial)
    ∧ checkOverrides
        { minority_report := some ⟨0.2⟩ } { physics_score := 0.9 } 0.5
        = (none, none) := by
  refine ⟨rfl, by norm_num, ?_, ?_⟩
  · exact (check_overrides_priority { adversarial_detected := true }
      { physics_score := 0.1 } 0.5).1 rfl
  · refine (check_overrides_priority { minority_report := some ⟨0.2⟩ }
      { physics_score := 0.9 } 0.5).2.2 rfl rfl (by norm_num) ?_
    intro mr hmr
    simp only [Option.some.injEq] at hmr
    subst hmr
    norm_num

/-- C7: a `DetectorResult` constructed with out-of-range score or
confidence is clamped to the nearest bound — never rejected and never
passed through — so both fields always lie in `[0, 1]`; in particular
score 1.5 is stored as 1.0 and confidence −0.3 as 0.0, as the repository
test `test_detector_result_clamp` asserts. -/
theorem detector_result_clamped (name : String) (dt : DetectorType) (s c : ℚ) :
    0 ≤ (DetectorResult.make name dt s c).score
    ∧ (DetectorResult.make name dt s c).score ≤ 1
    ∧ 0 ≤ (DetectorResult.make name dt s c).confidence
    ∧ (DetectorResult.make name dt s c).confidence ≤ 1
    ∧ (DetectorResult.make name dt s c).score = max 0 (min 1 s)
    ∧ (DetectorResult.make name dt s c).confidence = max 0 (min 1 c)
    ∧ (DetectorResult.make "test" .visual 1.5 (-0.3)).score = 1
    ∧ (DetectorResult.make "test" .visual 1.5 (-0.3)).confidence = 0 := by
  refine ⟨le_max_left _ _, max_le (by norm_num) (min_le_left _ _),
    le_max_left _ _, max_le (by norm_num) (min_le_left _ _), rfl, rfl, ?_, ?_⟩
  · show max 0 (min 1 1.5) = (1 : ℚ)
    norm_num
  · show max 0 (min 1 (-0.3)) = (0 : ℚ)
    norm_num

/-- C10: the scan verdict is independent of the media content — two scans
with the same filename and media-type hint but arbitrary contents (and
arbitrary registry state, uuid draws and clock readings) agree on
media_type, verdict, trust_score, confidence and threat_level. -/
theorem scan_content_independent (sha : List Nat → String)
    (c1 c2 : List Nat) (filename : String) (hint : Option String)
    (en1 en2 : List String) (fx1 fx2 : ScanEffects) :
    (scan sha c1 filename hint en1 fx1).media_type
        = (scan sha c2 filename hint en2 fx2).media_type
    ∧ (scan sha c1 filename hint en1 fx1).verdict
        = (scan sha c2 filename hint en2 fx2).verdict
    ∧ (scan sha c1 filename hint en1 fx1).trust_score
        = (scan sha c2 filename hint en2 fx2).trust_score
    ∧ (scan sha c1 filename hint en1 fx1).confidence
        = (scan sha c2 filename hint en2 fx2).confidence
    ∧ (scan sha c1 filename hint en1 fx1).threat_level
        = (scan sha c2 filename hint en2 fx2).threat_level := by
  exact ⟨rfl, rfl, rfl, rfl, rfl⟩

/-- C8: with 0 or 1 frames (including `None`) both `LightChallenge.evaluate`
and `MotionChallenge.evaluate` return the conservative default
`overall_score = 1.0, passed = true`; with enough frames the overall score
is `0.4·(first metric) + 0.3·(second) + 0.3·(third)` (4-decimal rounded as
reported) and `passed` holds exactly when that weighted sum is `≥ 0.6`. -/
theorem challenge_defaults_and_weights {F : Type}
    (ambient shadow specular flow fbRatio smooth : List F → ℚ) :
    ((lightEvaluate ambient shadow specular (none : Option (List F))).overall_score = 1
      ∧ (lightEvaluate ambient shadow specular none).passed = true
      ∧ (lightEvaluate ambient shadow specular (some [])).overall_score = 1
      ∧ (lightEvaluate ambient shadow specular (some [])).passed = true
      ∧ ∀ x : F, (lightEvaluate ambient shadow specular (some [x])).overall_score = 1
          ∧ (lightEvaluate ambient shadow specular (some [x])).passed = true)
    ∧ ((motionEvaluate flow fbRatio smooth (none : Option (List F))).overall_score = 1
      ∧ (motionEvaluate flow fbRatio smooth none).passed = true
      ∧ (motionEvaluate flow fbRatio smooth (some [])).overall_score = 1
      ∧ (motionEvaluate flow fbRatio smooth (some [])).passed = true
      ∧ ∀ x : F, (motionEvaluate flow fbRatio smooth (some [x])).overall_score = 1
          ∧ (motionEvaluate flow fbRatio smooth (some [x])).passed = true)
    ∧ (∀ fs : List F, 4 ≤ fs.length →
        (lightEvaluate ambient shadow specular (some fs)).overall_score
          = round4 (0.4 * ambient fs + 0.3 * shadow fs + 0.3 * specular fs)
        ∧ ((lightEvaluate ambient shadow specular (some fs)).passed = true
            ↔ 0.6 ≤ 0.4 * ambient fs + 0.3 * shadow fs + 0.3 * specular fs))
    ∧ (∀ fs : List F, 2 ≤ fs.length →
        (motionEvaluate flow fbRatio smooth (some fs)).overall_score
          = round4 (0.4 * flow fs + 0.3 * fbRatio fs + 0.3 * smooth fs)
        ∧ ((motionEvaluate flow fbRatio smooth (some fs)).passed = true
            ↔ 0.6 ≤ 0.4 * flow fs + 0.3 * fbRatio fs + 0.3 * smooth fs)) := by
  refine ⟨⟨rfl, rfl, rfl, rfl, fun x => ⟨rfl, rfl⟩⟩,
    ⟨rfl, rfl, rfl, rfl, fun x => ⟨rfl, rfl⟩⟩, ?_, ?_⟩
  · intro fs h4
    have h2 : ¬ fs.length < 2 := by omega
    constructor
    · simp [lightEvaluate, h2, if_pos h4]
    · simp [lightEvaluate, h2, if_pos h4, decide_eq_true_eq, ge_iff_le]
  · intro fs hlen
    have h2 : ¬ fs.length < 2 := by omega
    constructor
    · simp [motionEvaluate, h2]
    · simp [motionEvaluate, h2, decide_eq_true_eq, ge_iff_le]

/-- Witness for C8: four concrete frames with metric values 0.9/0.5/0.5
give light overall 0.66 and a pass, while two frames with metric values
0.5/0.5/0.5 give motion overall 0.5 and a fail. -/
theorem challenge_defaults_and_weights_witness :
    4 ≤ ([0, 1, 2, 3] : List Nat).length
    ∧ 2 ≤ ([5, 6] : List Nat).length
    ∧ (lightEvaluate (fun _ => 0.9) (fun _ => 0.5) (fun _ => 0.5)
        (some ([0, 1, 2, 3] : List Nat))).overall_score = 0.66
    ∧ (lightEvaluate (fun _ => 0.9) (fun _ => 0.5) (fun _ => 0.5)
        (some ([0, 1, 2, 3] : List Nat))).passed = true
    ∧ (motionEvaluate (fun _ => 0.5) (fun _ => 0.5) (fun _ => 0.5)
        (some ([5, 6] : List Nat))).passed = false
    ∧ (lightEvaluate (fun _ => (0.9 : ℚ)) (fun _ => 0.5) (fun _ => 0.5)
        (none : Option (List Nat))).overall_score = 1 := by
  have h := challenge_defaults_and_weights
    (F := Nat) (fun _ => 0.9) (fun _ => 0.5) (fun _ => 0.5)
    (fun _ => 0.5) (fun _ => 0.5) (fun _ => 0.5)
  have hlight := h.2.2.1 [0, 1, 2, 3] (by norm_num)
  have hmotion := h.2.2.2 [5, 6] (by norm_num)
  refine ⟨by norm_num, by norm_num, ?_, ?_, ?_, h.1.1⟩
  · rw [hlight.1]
    norm_num [round4, round_eq]
  · exact hlight.2.mpr (by norm_num)
  · cases hb : (motionEvaluate (fun _ => (0.5 : ℚ)) (fun _ => 0.5) (fun _ => 0.5)
        (some ([5, 6] : List Nat))).passed
    · rfl
    · exfalso
      have := hmotion.2.mp hb
      norm_num at this

/-- `round` is monotone on `ℝ` (helper). -/
theorem round_mono_real {a b : ℝ} (h : a ≤ b) : round a ≤ round b := by
  rw [round_eq, round_eq]
  exact Int.floor_le_floor (by linarith)

/-- 4-decimal rounding cannot push `min 0.95 x` above `0.95` (helper). -/
theorem round4R_min_le (x : ℝ) : round4R (min 0.95 x) ≤ 0.95 := by
  have h1 : min (0.95 : ℝ) x * 10000 ≤ (0.95 : ℝ) * 10000 :=
    mul_le_mul_of_nonneg_right (min_le_left _ _) (by norm_num)
  have h2 : round (min (0.95 : ℝ) x * 10000) ≤ round ((0.95 : ℝ) * 10000) :=
    round_mono_real h1
  have h3 : round ((0.95 : ℝ) * 10000) = 9500 := by
    have he : (0.95 : ℝ) * 10000 = 9500 := by norm_num
    rw [he]
    exact round_ofNat 9500
  rw [h3] at h2
  rw [round4R]
  calc ((round (min (0.95 : ℝ) x * 10000) : ℤ) : ℝ) / 10000
      ≤ ((9500 : ℤ) : ℝ) / 10000 := by
        apply div_le_div_of_nonneg_right ?_ (by norm_num)
        exact_mod_cast h2
    _ = 0.95 := by norm_num

/-- C6: `CrossModalAttention.fuse` reports
`confidence = min(0.95, agreement × 1.2)` (4-decimal rounded, hence never
above 0.95), where the agreement is `max(0, 1 − 3·std)` of the present
modality scores, defaulting to `0.5` when fewer than two modalities are
present; when no modality has any result the output is fused_score 0.5
with confidence 0. -/
theorem fuse_confidence_spec (visual audio text : List DetEntry) :
    (fuse [] [] []).fused_score = 0.5
    ∧ (fuse [] [] []).confidence = 0
    ∧ ((presentModalities visual audio text).isEmpty = false →
        (fuse visual audio text).confidence
          = round4R (min 0.95 (agreementOf (presentModalities visual audio text) * 1.2))
        ∧ (fuse visual audio text).confidence ≤ 0.95)
    ∧ ((presentModalities visual audio text).length < 2 →
        agreementOf (presentModalities visual audio text) = 0.5)
    ∧ (∀ ms : List ModInfo, 2 ≤ ms.length →
        agreementOf ms = max 0 (1 - npStd (ms.map (·.score)) * 3)) := by
  refine ⟨rfl, rfl, ?_, ?_, ?_⟩
  · intro hne
    constructor
    · simp [fuse, hne]
    · simp only [fuse, hne, Bool.false_eq_true, if_false]
      exact round4R_min_le _
  · intro hlt
    unfold agreementOf
    rw [if_pos hlt]
  · intro ms hlen
    have hn : ¬ ms.length < 2 := by omega
    unfold agreementOf
    rw [if_neg hn]

/-- Witness for C6, at one visual detector result of score 0.9 and
confidence 1 (a single present modality) and at the no-modality input. -/
theorem fuse_confidence_spec_witness :
    (presentModalities [⟨0.9, 1⟩] [] []).isEmpty = false
    ∧ (presentModalities [⟨0.9, 1⟩] [] []).length < 2
    ∧ (fuse [⟨0.9, 1⟩] [] []).confidence
        = round4R (min 0.95 (agreementOf (presentModalities [⟨0.9, 1⟩] [] []) * 1.2))
    ∧ (fuse [⟨0.9, 1⟩] [] []).confidence ≤ 0.95
    ∧ agreementOf (presentModalities [⟨0.9, 1⟩] [] []) = 0.5
    ∧ (fuse [] [] []).fused_score = 0.5
    ∧ (fuse [] [] []).confidence = 0 := by
  have h := fuse_confidence_spec [⟨0.9, 1⟩] [] []
  have hne : (presentModalities [⟨0.9, 1⟩] [] []).isEmpty = false := by
    simp [presentModalities]
  have hlt : (presentModalities [⟨0.9, 1⟩] [] []).length < 2 := by
    simp [presentModalities]
  exact ⟨hne, hlt, (h.2.2.1 hne).1, (h.2.2.1 hne).2, h.2.2.2.1 hlt, h.1, h.2.1⟩

/-- `hexOfNat` always renders exactly `k` digits (helper). -/
theorem hexOfNat_length (k : Nat) : ∀ n, (hexOfNat k n).length = k := by
  induction k with
  | zero => intro n; rfl
  | succ k ih =>
    intro n
    simp [hexOfNat, ih]

/-- Equal hex digit characters come from equal residues mod 16 (helper). -/
theorem hexChar_eq_mod (a b : Nat) (h : hexChar a = hexChar b) : a % 16 = b % 16 := by
  have key : ∀ x, x < 16 → ∀ y, y < 16 →
      (Nat.digitChar x = Nat.digitChar y → x = y) := by decide
  exact key _ (Nat.mod_lt _ (by norm_num)) _ (Nat.mod_lt _ (by norm_num)) h

/-- `hexOfNat k` is injective below `16 ^ k` (helper). -/
theorem hexOfNat_inj : ∀ (k n m : Nat), n < 16 ^ k → m < 16 ^ k →
    hexOfNat k n = hexOfNat k m → n = m := by
  intro k
  induction k with
  | zero =>
    intro n m hn hm _
    simp only [pow_zero, Nat.lt_one_iff] at hn hm
    omega
  | succ k ih =>
    intro n m hn hm heq
    simp only [hexOfNat] at heq
    have hlen : (hexOfNat k (n / 16)).length = (hexOfNat k (m / 16)).length := by
      rw [hexOfNat_length, hexOfNat_length]
    obtain ⟨h1, h2⟩ := List.append_inj heq hlen
    have hmod : n % 16 = m % 16 := hexChar_eq_mod _ _ (by simpa using h2)
    rw [pow_succ] at hn hm
    have hdn : n / 16 < 16 ^ k := by omega
    have hdm : m / 16 < 16 ^ k := by omega
    have hdiv := ih (n / 16) (m / 16) hdn hdm h1
    omega

/-- Two challenge ids agree only when their secrets tokens agree (helper):
the id determines the token, whatever the challenge types. -/
theorem challengeId_token_inj {t1 t2 : CType} {n1 n2 : Nat}
    (h1 : n1 < 16 ^ 16) (h2 : n2 < 16 ^ 16)
    (h : challengeId t1 n1 = challengeId t2 n2) : n1 = n2 := by
  have hd : (typeTag t1).data ++ hexOfNat 16 n1
      = (typeTag t2).data ++ hexOfNat 16 n2 := congrArg String.data h
  cases t1 <;> cases t2
  · exact hexOfNat_inj 16 n1 n2 h1 h2 (List.append_inj hd rfl).2
  · exact absurd (show (some 'l' : Option Char) = some 'm' from congrArg List.head? hd)
      (by decide)
  · exact absurd (show (some 'l' : Option Char) = some 'a' from congrArg List.head? hd)
      (by decide)
  · exact absurd (show (some 'm' : Option Char) = some 'l' from congrArg List.head? hd)
      (by decide)
  · exact hexOfNat_inj 16 n1 n2 h1 h2 (List.append_inj hd rfl).2
  · exact absurd (show (some 'm' : Option Char) = some 'a' from congrArg List.head? hd)
      (by decide)
  · exact absurd (show (some 'a' : Option Char) = some 'l' from congrArg List.head? hd)
      (by decide)
  · exact absurd (show (some 'a' : Option Char) = some 'm' from congrArg List.head? hd)
      (by decide)
  · exact hexOfNat_inj 16 n1 n2 h1 h2 (List.append_inj hd rfl).2

/-- A generated challenge carries the id derived from its type and its
secrets token (helper). -/
theorem genChallenge_id (d : Draw) :
    (genChallenge d).challenge_id = challengeId d.ctype d.token := by
  cases d <;> rfl

/-- C9: challenge ids are unpredictable in the structural sense the spec
demands: each id is derived from a fresh `secrets.token_hex(8)` draw, not
from a counter or the session parameters, so two sessions generated with
the same parameters whose token draws do not collide (the guarantee of the
cryptographically strong source, up to negligible probability) never
produce identical challenge-id sequences, whatever types were picked and
however the final shuffle permuted each session. -/
theorem session_ids_unpredictable
    (draws1 draws2 : List Draw) (out1 out2 : List Challenge)
    (hp1 : out1.Perm (sessionChallenges draws1))
    (hp2 : out2.Perm (sessionChallenges draws2))
    (hne : draws1 ≠ [])
    (hb1 : ∀ d ∈ draws1, d.token < 16 ^ 16)
    (hb2 : ∀ d ∈ draws2, d.token < 16 ^ 16)
    (hdisj : ∀ d1 ∈ draws1, ∀ d2 ∈ draws2, d1.token ≠ d2.token) :
    out1.map Challenge.challenge_id ≠ out2.map Challenge.challenge_id := by
  intro heq
  have hout1 : out1 ≠ [] := by
    intro h0
    apply hne
    have hsn : sessionChallenges draws1 = [] := ((h0 ▸ hp1).symm).eq_nil
    simpa [sessionChallenges] using hsn
  obtain ⟨c, hc⟩ := List.exists_mem_of_ne_nil out1 hout1
  have hcid : c.challenge_id ∈ out2.map Challenge.challenge_id := by
    rw [← heq]
    exact List.mem_map_of_mem _ hc
  obtain ⟨c2, hc2, hid⟩ := List.mem_map.mp hcid
  have hc1s : c ∈ sessionChallenges draws1 := hp1.mem_iff.mp hc
  have hc2s : c2 ∈ sessionChallenges draws2 := hp2.mem_iff.mp hc2
  obtain ⟨d1, hd1, hgd1⟩ := List.mem_map.mp hc1s
  obtain ⟨d2, hd2, hgd2⟩ := List.mem_map.mp hc2s
  have hids : challengeId d2.ctype d2.token = challengeId d1.ctype d1.token := by
    rw [← genChallenge_id d1, ← genChallenge_id d2, hgd1, hgd2]
    exact hid
  have htok := challengeId_token_inj (hb2 d2 hd2) (hb1 d1 hd1) hids
  exact hdisj d1 hd1 d2 hd2 htok.symm

/-- Witness for C9: two single-challenge sessions (unshuffled, i.e. the
identity permutation) whose light challenges consumed tokens 0 and 1. -/
theorem session_ids_unpredictable_witness :
    (0 : Nat) < 16 ^ 16
    ∧ (sessionChallenges [Draw.light 0 []]).map Challenge.challenge_id
        ≠ (sessionChallenges [Draw.light 1 []]).map Challenge.challenge_id := by
  refine ⟨by norm_num, ?_⟩
  refine session_ids_unpredictable [Draw.light 0 []] [Draw.light 1 []] _ _
    (List.Perm.refl _) (List.Perm.refl _) (by simp) ?_ ?_ ?_
  · intro d hd
    simp only [List.mem_singleton] at hd
    subst hd
    norm_num [Draw.token]
  · intro d hd
    simp only [List.mem_singleton] at hd
    subst hd
    norm_num [Draw.token]
  · intro d1 h1 d2 h2
    simp only [List.mem_singleton] at h1 h2
    subst h1
    subst h2
    simp [Draw.token]

end Scanner
